import Mathlib

/-!
Shallow embedding of the IEEE 802.15.4 MAC channel-scan state machine from
`wireless/ieee802154/mac802154_scan.c` (functions `mac802154_req_scan`,
`mac802154_scanfinish`, `mac802154_scantimeout`), together with theorems
settling the specified properties.

Modelling conventions:
- machine integers are `Nat`; the fixed `channels[15]` array of the request
  is a total function `Nat → Nat` (reads past `numchan` return whatever the
  storage holds, as in C);
- the two semaphores are booleans recording whether the scan path holds
  them; `mac802154_takesem` may be interrupted, which is modelled by the
  boolean parameters `opsemOk` and `exclsemOk` of `mac802154_req_scan`;
- `scanindex` is declared `uint8_t` in `mac802154_internal.h` (outside the
  given sources), so the handler increment is taken modulo 2^8: after 255
  it wraps to 0, which matters for the admitted empty-channel-list scan;
- every externally observable side effect (lock operations, radio calls,
  PAN id writes, timer arming, outcome assembly, notification delivery)
  is also recorded in an event trace, so ordering claims are about lists;
- the one-shot timer is the `timer` field: `some d` means a timeout for
  duration `d` is pending with handler `mac802154_scantimeout`; the timer
  facility consumes the shot when it fires, so the handler starts with
  `timer := none` and only the explicit `mac802154_timerstart` call re-arms.
-/

namespace Mac802154Scan

/-- Discovered coordinator descriptor (`struct ieee802154_pandesc_s`),
opaque payload. -/
abbrev PanDesc := Nat

/-- Scan types of `enum ieee802154_scantype_e`; `OTHER` stands for any value
outside the enumeration, handled by the `default:` arm of the switch. -/
inductive ScanType
  | PASSIVE
  | ACTIVE
  | ED
  | ORPHAN
  | OTHER
deriving DecidableEq, Repr

/-- Current MAC operation (`MAC802154_OP_NONE`, `MAC802154_OP_SCAN`, and the
other operation kinds collapsed into one representative). -/
inductive MacOp
  | OP_NONE
  | OP_SCAN
  | OP_OTHER
deriving DecidableEq, Repr

/-- Completion status codes used by the scan path
(`IEEE802154_STATUS_SUCCESS`, `IEEE802154_STATUS_NO_BEACON`). -/
inductive ScanStatus
  | SUCCESS
  | NO_BEACON
deriving DecidableEq, Repr

/-- Return codes of `mac802154_req_scan`: `OK`, `-EINVAL`, `-EINTR`,
`-ENOTTY`. -/
inductive RetCode
  | OK
  | EINVAL
  | EINTR
  | ENOTTY
deriving DecidableEq, Repr

/-- The caller request, `struct ieee802154_scan_req_s`. `channels` models the
fixed `uint8_t channels[15]` storage as a total function: reads past
`numchan` return whatever the storage holds, and reads past index 14 —
which the source performs in the degenerate empty-channel-list scan — are
out-of-bounds in C and here return arbitrary modelled bytes. `numchan` and
`duration` are unsigned in the source. -/
structure ScanReq where
  type : ScanType
  chpage : Nat
  duration : Nat
  channels : Nat → Nat
  numchan : Nat

/-- The fields of `struct ieee802154_privmac_s` touched by the scan path,
plus the radio and timer state the scan drives through collaborator calls. -/
structure PrivMac where
  curr_op : MacOp
  /-- true while the scan path holds the ops semaphore -/
  opsem : Bool
  /-- true while the scan path holds the exclusive-access semaphore -/
  exclsem : Bool
  currscan : ScanReq
  /-- position in the channel list; a `uint8_t` in the source
  (`mac802154_internal.h`), so increments are taken mod 2^8 -/
  scanindex : Nat
  npandesc : Nat
  pandescs : List PanDesc
  /-- current PAN id (`priv->addr.panid`, mirrored to the radio) -/
  panid : Nat
  panidbeforescan : Nat
  scansymdur : Nat
  /-- radio channel -/
  chan : Nat
  /-- radio channel page -/
  chpage : Nat
  rxenabled : Bool
  /-- pending one-shot scan timer duration, handler `mac802154_scantimeout` -/
  timer : Option Nat

/-- The scan-confirmation payload `notif->u.scanconf`
(`struct ieee802154_scan_conf_s`). Field defaults model the freshly
allocated notification record; `mac802154_notif_alloc` itself is outside
the given sources. Modelled from the spec: the finalize step records zero
unscanned channels when every channel was scanned, so the allocated record
starts from zeroed fields and only the branches below overwrite them. -/
structure ScanConf where
  type : ScanType := .PASSIVE
  chpage : Nat := 0
  numunscanned : Nat := 0
  unscanned : List Nat := []
  numdesc : Nat := 0
  pandescs : List PanDesc := []
  status : ScanStatus := .SUCCESS

/-- Observable side effects, in program order. -/
inductive Event
  | takeOpSem
  | giveOpSem
  | takeExclSem (blocking : Bool)
  | giveExclSem
  | setCurrOp (op : MacOp)
  | setChannel (ch : Nat)
  | setChPage (pg : Nat)
  /-- the `IEEE802154_PANIDCOPY` saving the PAN id into `panidbeforescan` -/
  | savePanId
  | setPanId (id : Nat)
  | rxEnable
  | rxDisable
  | timerStart (dur : Nat)
  | notifAlloc
  | assembleOutcome (c : ScanConf)
  | notify (c : ScanConf)

/-- Recognizes PAN-id write events. -/
def isSetPanId : Event → Bool
  | .setPanId _ => true
  | _ => false

/-- Recognizes the PAN-id save (`IEEE802154_PANIDCOPY`) event. -/
def isSavePanId : Event → Bool
  | .savePanId => true
  | _ => false

/-- Recognizes notification-delivery events. -/
def isNotify : Event → Bool
  | .notify _ => true
  | _ => false

/-- Recognizes releases of the operation semaphore. -/
def isGiveOpSem : Event → Bool
  | .giveOpSem => true
  | _ => false

/-- Modelled from the spec: `IEEE802154_BASE_SUPERFRAME_DURATION`
(`aBaseSuperframeDuration`), defined in a header outside the given sources;
the standard value is 960 symbols. -/
def aBaseSuperframeDuration : Nat := 960

/-- The wildcard PAN id `IEEE802154_PANID_UNSPEC` (0xffff). -/
def IEEE802154_PANID_UNSPEC : Nat := 0xffff

/-- Embedding of `mac802154_scanfinish`. It takes `exclsem` non-blocking,
allocates the notification, resets `curr_op` and releases `opsem`, assembles
the scan confirmation (the `!=` branch copying the unscanned remainder,
taken literally from the source), restores the PAN id, releases `exclsem`
and delivers the notification. Returns the new state, the assembled
confirmation, and the event trace. -/
def mac802154_scanfinish (priv : PrivMac) (status : ScanStatus) :
    PrivMac × ScanConf × List Event :=
  let conf : ScanConf :=
    if priv.scanindex ≠ priv.currscan.numchan then
      { type := priv.currscan.type
        chpage := priv.currscan.chpage
        numunscanned := priv.currscan.numchan - priv.scanindex
        unscanned := (List.range (priv.currscan.numchan - priv.scanindex)).map
          (fun i => priv.currscan.channels (priv.scanindex + i))
        numdesc := priv.npandesc
        pandescs := priv.pandescs.take priv.npandesc
        status := status }
    else
      { type := priv.currscan.type
        chpage := priv.currscan.chpage
        numdesc := priv.npandesc
        pandescs := priv.pandescs.take priv.npandesc
        status := status }
  ({ priv with
      curr_op := .OP_NONE
      opsem := false
      exclsem := false
      panid := priv.panidbeforescan },
   conf,
   [.takeExclSem false, .notifAlloc, .setCurrOp .OP_NONE, .giveOpSem,
    .assembleOutcome conf, .setPanId priv.panidbeforescan, .giveExclSem,
    .notify conf])

/-- Embedding of `mac802154_scantimeout`: disable the receiver, advance
`scanindex` (a `uint8_t`, so the increment wraps modulo 2^8); when the
index equals `numchan` finalize with `SUCCESS` if descriptors were
gathered, else `NO_BEACON`; otherwise switch to the next channel,
re-enable the receiver and re-arm the one-shot timer for `scansymdur`.
The pending shot is consumed (`timer := none`) when the handler runs. -/
def mac802154_scantimeout (priv : PrivMac) :
    PrivMac × Option ScanConf × List Event :=
  let p1 : PrivMac :=
    { priv with rxenabled := false, timer := none,
                scanindex := (priv.scanindex + 1) % 256 }
  if p1.scanindex = p1.currscan.numchan then
    let st := if 0 < p1.npandesc then ScanStatus.SUCCESS else ScanStatus.NO_BEACON
    let r := mac802154_scanfinish p1 st
    (r.1, some r.2.1, Event.rxDisable :: r.2.2)
  else
    ({ p1 with
        chan := p1.currscan.channels p1.scanindex
        rxenabled := true
        timer := some p1.scansymdur },
     none,
     [.rxDisable, .setChannel (p1.currscan.channels p1.scanindex),
      .rxEnable, .timerStart p1.scansymdur])

/-- Embedding of `mac802154_req_scan`. The two booleans state whether the
two blocking `mac802154_takesem` calls succeed (false models an interrupted
wait). Returns the new state, the event trace, and the return code. -/
def mac802154_req_scan (priv : PrivMac) (req : ScanReq)
    (opsemOk exclsemOk : Bool) : PrivMac × List Event × RetCode :=
  if 15 < req.duration ∨ req.numchan < 0 ∨ 15 < req.numchan then
    (priv, [], .EINVAL)
  else if opsemOk = false then
    (priv, [], .EINTR)
  else if exclsemOk = false then
    ({ priv with curr_op := .OP_SCAN, opsem := false },
     [.takeOpSem, .setCurrOp .OP_SCAN, .giveOpSem], .EINTR)
  else
    match req.type with
    | .PASSIVE =>
        ({ priv with
            curr_op := .OP_SCAN
            opsem := true
            exclsem := false
            currscan := req
            scanindex := 0
            npandesc := 0
            chan := req.channels 0
            chpage := req.chpage
            panidbeforescan := priv.panid
            panid := IEEE802154_PANID_UNSPEC
            rxenabled := true
            scansymdur := aBaseSuperframeDuration * ((1 <<< req.duration) + 1)
            timer := some (aBaseSuperframeDuration * ((1 <<< req.duration) + 1)) },
         [.takeOpSem, .setCurrOp .OP_SCAN, .takeExclSem true,
          .setChannel (req.channels 0), .setChPage req.chpage, .savePanId,
          .setPanId IEEE802154_PANID_UNSPEC, .rxEnable,
          .timerStart (aBaseSuperframeDuration * ((1 <<< req.duration) + 1)),
          .giveExclSem],
         .OK)
    | .ACTIVE =>
        ({ priv with curr_op := .OP_SCAN, opsem := false, exclsem := false,
                     currscan := req, scanindex := 0, npandesc := 0 },
         [.takeOpSem, .setCurrOp .OP_SCAN, .takeExclSem true,
          .giveExclSem, .giveOpSem], .ENOTTY)
    | .ED =>
        ({ priv with curr_op := .OP_SCAN, opsem := false, exclsem := false,
                     currscan := req, scanindex := 0, npandesc := 0 },
         [.takeOpSem, .setCurrOp .OP_SCAN, .takeExclSem true,
          .giveExclSem, .giveOpSem], .ENOTTY)
    | .ORPHAN =>
        ({ priv with curr_op := .OP_SCAN, opsem := false, exclsem := false,
                     currscan := req, scanindex := 0, npandesc := 0 },
         [.takeOpSem, .setCurrOp .OP_SCAN, .takeExclSem true,
          .giveExclSem, .giveOpSem], .ENOTTY)
    | .OTHER =>
        ({ priv with curr_op := .OP_SCAN, opsem := false, exclsem := false,
                     currscan := req, scanindex := 0, npandesc := 0 },
         [.takeOpSem, .setCurrOp .OP_SCAN, .takeExclSem true,
          .giveExclSem, .giveOpSem], .EINVAL)

/-- Modelled from the spec: the external frame-reception path (code outside
the given sources) appends a discovered coordinator descriptor while a scan
is in progress; it only touches the descriptor buffer and its count. -/
def appendDesc (d : PanDesc) (priv : PrivMac) : PrivMac :=
  if priv.curr_op = .OP_SCAN then
    { priv with pandescs := priv.pandescs ++ [d], npandesc := priv.npandesc + 1 }
  else
    priv

/-- External descriptor arrivals folded into the state. -/
def appendRun (ds : List PanDesc) (priv : PrivMac) : PrivMac :=
  ds.foldl (fun q d => appendDesc d q) priv

/-- One scan run after admission: each schedule entry lists the descriptors
the reception path delivers before the next channel timeout fires; events
of all timeouts are concatenated. -/
def runScanSteps : List (List PanDesc) → PrivMac → PrivMac × List Event
  | [], priv => (priv, [])
  | ds :: rest, priv =>
      let r1 := mac802154_scantimeout (appendRun ds priv)
      let r2 := runScanSteps rest r1.1
      (r2.1, r1.2.2 ++ r2.2)

/-! Concrete fixtures used by witnesses and counterexamples. -/

/-- A throwaway request used to fill `currscan` of the idle fixture. -/
def req0 : ScanReq :=
  { type := .PASSIVE, chpage := 0, duration := 0,
    channels := fun _ => 0, numchan := 0 }

/-- An idle MAC instance: no operation in progress, both semaphores free,
PAN id 0x1234. -/
def priv0 : PrivMac :=
  { curr_op := .OP_NONE, opsem := false, exclsem := false, currscan := req0,
    scanindex := 0, npandesc := 0, pandescs := [], panid := 0x1234,
    panidbeforescan := 0, scansymdur := 0, chan := 26, chpage := 0,
    rxenabled := false, timer := none }

/-- Scenario C of the spec: 20 channels requested. -/
def reqChan20 : ScanReq :=
  { type := .PASSIVE, chpage := 0, duration := 0,
    channels := fun _ => 11, numchan := 20 }

/-- Scenario D of the spec: a valid active-scan request. -/
def reqActive : ScanReq :=
  { type := .ACTIVE, chpage := 0, duration := 0,
    channels := fun _ => 11, numchan := 1 }

/-- A valid passive request over one channel. -/
def reqPassive1 : ScanReq :=
  { type := .PASSIVE, chpage := 0, duration := 0,
    channels := fun _ => 12, numchan := 1 }

/-- A valid passive request over two channels (Scenario A). -/
def reqPassive2 : ScanReq :=
  { type := .PASSIVE, chpage := 0, duration := 0,
    channels := fun i => [11, 12].getD i 0, numchan := 2 }

/-- A valid passive request with an empty channel list. -/
def reqPassive0 : ScanReq :=
  { type := .PASSIVE, chpage := 0, duration := 0,
    channels := fun _ => 0, numchan := 0 }

/-! Claim theorems. -/

/-- C1: a request whose duration is outside [0, 15] or whose channel count
is outside [0, 15] makes `mac802154_req_scan` return `-EINVAL` immediately,
with the state returned unchanged (so `curr_op` in particular is unchanged)
and an empty event trace (no lock acquired, nothing mutated). -/
theorem req_scan_invalid_rejected (priv : PrivMac) (req : ScanReq)
    (opsemOk exclsemOk : Bool)
    (h : 15 < req.duration ∨ 15 < req.numchan) :
    mac802154_req_scan priv req opsemOk exclsemOk = (priv, [], .EINVAL) := by
  unfold mac802154_req_scan
  rcases h with h | h <;> simp [h]

/-- Witness for C1 at Scenario C (`numchan = 20`). -/
theorem req_scan_invalid_rejected_attests :
    (15 < reqChan20.duration ∨ 15 < reqChan20.numchan) ∧
    mac802154_req_scan priv0 reqChan20 true true = (priv0, [], .EINVAL) :=
  ⟨Or.inr (by decide),
   req_scan_invalid_rejected priv0 reqChan20 true true (Or.inr (by decide))⟩

/-- C2 counterexample: at the idle fixture and a valid active-scan request,
`mac802154_req_scan` returns `-ENOTTY` but leaves `curr_op = OP_SCAN`, not
`OP_NONE` as the claim states; the request snapshot is also overwritten. -/
theorem req_scan_unsupported_cex :
    (mac802154_req_scan priv0 reqActive true true).2.2 = RetCode.ENOTTY ∧
    (mac802154_req_scan priv0 reqActive true true).1.curr_op = MacOp.OP_SCAN ∧
    (mac802154_req_scan priv0 reqActive true true).1.curr_op ≠ MacOp.OP_NONE := by
  exact ⟨rfl, rfl, by decide⟩

/-- C2 amended: for a validated request whose type is not `PASSIVE`
(Active, EnergyDetection, Orphan, or unrecognized), `mac802154_req_scan`
releases `exclsem` then `opsem` in that order, returns `-ENOTTY`
(`-EINVAL` for the unrecognized type), performs no radio, PAN-id or timer
side effect (those fields are untouched and the trace holds no such event),
but leaves `curr_op` set to `OP_SCAN` — not `OP_NONE` — and overwrites the
request snapshot, `scanindex` and `npandesc`. -/
theorem req_scan_unsupported_cleanup (priv : PrivMac) (req : ScanReq)
    (h1 : req.duration ≤ 15) (h2 : req.numchan ≤ 15)
    (h3 : req.type ≠ ScanType.PASSIVE) :
    mac802154_req_scan priv req true true =
      ({ priv with curr_op := .OP_SCAN, opsem := false, exclsem := false,
                   currscan := req, scanindex := 0, npandesc := 0 },
       [.takeOpSem, .setCurrOp .OP_SCAN, .takeExclSem true,
        .giveExclSem, .giveOpSem],
       if req.type = ScanType.OTHER then RetCode.EINVAL else RetCode.ENOTTY) := by
  unfold mac802154_req_scan
  have hv : ¬(15 < req.duration ∨ req.numchan < 0 ∨ 15 < req.numchan) := by
    omega
  rw [if_neg hv]
  cases htype : req.type
  · exact absurd htype h3
  · simp [htype]
  · simp [htype]
  · simp [htype]
  · simp [htype]

/-- Witness for the amended C2 at Scenario D (`type = ACTIVE`). -/
theorem req_scan_unsupported_cleanup_attests :
    reqActive.duration ≤ 15 ∧ reqActive.numchan ≤ 15 ∧
    reqActive.type ≠ ScanType.PASSIVE ∧
    mac802154_req_scan priv0 reqActive true true =
      ({ priv0 with curr_op := .OP_SCAN, opsem := false, exclsem := false,
                    currscan := reqActive, scanindex := 0, npandesc := 0 },
       [.takeOpSem, .setCurrOp .OP_SCAN, .takeExclSem true,
        .giveExclSem, .giveOpSem],
       if reqActive.type = ScanType.OTHER then RetCode.EINVAL
        else RetCode.ENOTTY) :=
  ⟨by decide, by decide, by decide,
   req_scan_unsupported_cleanup priv0 reqActive (by decide) (by decide)
     (by decide)⟩

/-- C9: when the blocking `exclsem` acquisition is interrupted after
`opsem` was taken and `curr_op` was set to `OP_SCAN`, the function releases
`opsem` and returns `-EINTR`, and `curr_op` remains `OP_SCAN`: the reset to
`OP_NONE` is not performed on this path. -/
theorem req_scan_interrupted_leaves_scan (priv : PrivMac) (req : ScanReq)
    (h1 : req.duration ≤ 15) (h2 : req.numchan ≤ 15) :
    mac802154_req_scan priv req true false =
      ({ priv with curr_op := .OP_SCAN, opsem := false },
       [.takeOpSem, .setCurrOp .OP_SCAN, .giveOpSem], .EINTR) := by
  unfold mac802154_req_scan
  have hv : ¬(15 < req.duration ∨ req.numchan < 0 ∨ 15 < req.numchan) := by
    omega
  simp [hv]
  exact ⟨h1, h2⟩

/-- Witness for C9 at a valid passive request. -/
theorem req_scan_interrupted_leaves_scan_attests :
    reqPassive1.duration ≤ 15 ∧ reqPassive1.numchan ≤ 15 ∧
    mac802154_req_scan priv0 reqPassive1 true false =
      ({ priv0 with curr_op := .OP_SCAN, opsem := false },
       [.takeOpSem, .setCurrOp .OP_SCAN, .giveOpSem], .EINTR) :=
  ⟨by decide, by decide,
   req_scan_interrupted_leaves_scan priv0 reqPassive1 (by decide) (by decide)⟩

/-! Helper equations describing each branch of the embedded functions. -/

/-- The confirmation assembled when every channel was scanned. -/
def doneConf (priv : PrivMac) (status : ScanStatus) : ScanConf :=
  { type := priv.currscan.type, chpage := priv.currscan.chpage,
    numdesc := priv.npandesc, pandescs := priv.pandescs.take priv.npandesc,
    status := status }

/-- Admission equation: a validated passive request with both semaphore
acquisitions succeeding. -/
theorem req_scan_passive_eq (priv : PrivMac) (req : ScanReq)
    (h1 : req.duration ≤ 15) (h2 : req.numchan ≤ 15)
    (h3 : req.type = ScanType.PASSIVE) :
    mac802154_req_scan priv req true true =
      ({ priv with
          curr_op := .OP_SCAN
          opsem := true
          exclsem := false
          currscan := req
          scanindex := 0
          npandesc := 0
          chan := req.channels 0
          chpage := req.chpage
          panidbeforescan := priv.panid
          panid := IEEE802154_PANID_UNSPEC
          rxenabled := true
          scansymdur := aBaseSuperframeDuration * ((1 <<< req.duration) + 1)
          timer := some (aBaseSuperframeDuration * ((1 <<< req.duration) + 1)) },
       [.takeOpSem, .setCurrOp .OP_SCAN, .takeExclSem true,
        .setChannel (req.channels 0), .setChPage req.chpage, .savePanId,
        .setPanId IEEE802154_PANID_UNSPEC, .rxEnable,
        .timerStart (aBaseSuperframeDuration * ((1 <<< req.duration) + 1)),
        .giveExclSem],
       .OK) := by
  unfold mac802154_req_scan
  have hv : ¬(15 < req.duration ∨ req.numchan < 0 ∨ 15 < req.numchan) := by
    omega
  rw [if_neg hv]
  simp [h3]

/-- Timeout equation, non-final branch, general wrapped form: the
incremented 8-bit index differs from `numchan`. -/
theorem scantimeout_nonfinal_mod (priv : PrivMac)
    (h : (priv.scanindex + 1) % 256 ≠ priv.currscan.numchan) :
    mac802154_scantimeout priv =
      ({ priv with
          scanindex := (priv.scanindex + 1) % 256
          chan := priv.currscan.channels ((priv.scanindex + 1) % 256)
          rxenabled := true
          timer := some priv.scansymdur },
       none,
       [.rxDisable,
        .setChannel (priv.currscan.channels ((priv.scanindex + 1) % 256)),
        .rxEnable, .timerStart priv.scansymdur]) := by
  unfold mac802154_scantimeout
  simp [h]

/-- Timeout equation, final branch, general wrapped form: the incremented
8-bit index equals `numchan`, so the scan finalizes in place. -/
theorem scantimeout_final_mod (priv : PrivMac)
    (h : (priv.scanindex + 1) % 256 = priv.currscan.numchan) :
    mac802154_scantimeout priv =
      ({ priv with
          rxenabled := false
          timer := none
          scanindex := (priv.scanindex + 1) % 256
          curr_op := .OP_NONE
          opsem := false
          exclsem := false
          panid := priv.panidbeforescan },
       some (doneConf priv
        (if 0 < priv.npandesc then ScanStatus.SUCCESS else ScanStatus.NO_BEACON)),
       [.rxDisable, .takeExclSem false, .notifAlloc, .setCurrOp .OP_NONE,
        .giveOpSem,
        .assembleOutcome (doneConf priv
          (if 0 < priv.npandesc then ScanStatus.SUCCESS else ScanStatus.NO_BEACON)),
        .setPanId priv.panidbeforescan, .giveExclSem,
        .notify (doneConf priv
          (if 0 < priv.npandesc then ScanStatus.SUCCESS else ScanStatus.NO_BEACON))]) := by
  unfold mac802154_scantimeout mac802154_scanfinish
  simp [h, doneConf]

/-- Timeout equation, non-final branch, below the 8-bit wrap: the
increment is exactly one. -/
theorem scantimeout_nonfinal (priv : PrivMac) (hb : priv.scanindex + 1 < 256)
    (h : priv.scanindex + 1 ≠ priv.currscan.numchan) :
    mac802154_scantimeout priv =
      ({ priv with
          scanindex := priv.scanindex + 1
          chan := priv.currscan.channels (priv.scanindex + 1)
          rxenabled := true
          timer := some priv.scansymdur },
       none,
       [.rxDisable, .setChannel (priv.currscan.channels (priv.scanindex + 1)),
        .rxEnable, .timerStart priv.scansymdur]) := by
  have hm : (priv.scanindex + 1) % 256 = priv.scanindex + 1 :=
    Nat.mod_eq_of_lt hb
  rw [scantimeout_nonfinal_mod priv (by rw [hm]; exact h), hm]

/-- Timeout equation, final branch, below the 8-bit wrap: the last channel
just elapsed, the scan finalizes in place. -/
theorem scantimeout_final (priv : PrivMac) (hb : priv.scanindex + 1 < 256)
    (h : priv.scanindex + 1 = priv.currscan.numchan) :
    mac802154_scantimeout priv =
      ({ priv with
          rxenabled := false
          timer := none
          scanindex := priv.scanindex + 1
          curr_op := .OP_NONE
          opsem := false
          exclsem := false
          panid := priv.panidbeforescan },
       some (doneConf priv
        (if 0 < priv.npandesc then ScanStatus.SUCCESS else ScanStatus.NO_BEACON)),
       [.rxDisable, .takeExclSem false, .notifAlloc, .setCurrOp .OP_NONE,
        .giveOpSem,
        .assembleOutcome (doneConf priv
          (if 0 < priv.npandesc then ScanStatus.SUCCESS else ScanStatus.NO_BEACON)),
        .setPanId priv.panidbeforescan, .giveExclSem,
        .notify (doneConf priv
          (if 0 < priv.npandesc then ScanStatus.SUCCESS else ScanStatus.NO_BEACON))]) := by
  have hm : (priv.scanindex + 1) % 256 = priv.scanindex + 1 :=
    Nat.mod_eq_of_lt hb
  rw [scantimeout_final_mod priv (by rw [hm]; exact h), hm]

/-- Timeout equation at the 8-bit wrap with an empty channel list:
`scanindex = 255` increments to `256 % 256 = 0`, the equality test against
`numchan = 0` fires, and the scan finalizes. -/
theorem scantimeout_wrap_final (priv : PrivMac) (hb : priv.scanindex = 255)
    (hz : priv.currscan.numchan = 0) :
    mac802154_scantimeout priv =
      ({ priv with
          rxenabled := false
          timer := none
          scanindex := 0
          curr_op := .OP_NONE
          opsem := false
          exclsem := false
          panid := priv.panidbeforescan },
       some (doneConf priv
        (if 0 < priv.npandesc then ScanStatus.SUCCESS else ScanStatus.NO_BEACON)),
       [.rxDisable, .takeExclSem false, .notifAlloc, .setCurrOp .OP_NONE,
        .giveOpSem,
        .assembleOutcome (doneConf priv
          (if 0 < priv.npandesc then ScanStatus.SUCCESS else ScanStatus.NO_BEACON)),
        .setPanId priv.panidbeforescan, .giveExclSem,
        .notify (doneConf priv
          (if 0 < priv.npandesc then ScanStatus.SUCCESS else ScanStatus.NO_BEACON))]) := by
  have hmod : (priv.scanindex + 1) % 256 = priv.currscan.numchan := by
    rw [hb, hz]
  have hz2 : (priv.scanindex + 1) % 256 = 0 := by rw [hb]
  rw [scantimeout_final_mod priv hmod, hz2]

/-- An admitted single-channel passive scan about to see its only channel
timeout elapse. -/
def privEnd : PrivMac :=
  { priv0 with
      curr_op := .OP_SCAN, opsem := true, currscan := reqPassive1,
      scanindex := 0, npandesc := 0, panid := IEEE802154_PANID_UNSPEC,
      panidbeforescan := 0x1234, scansymdur := 1920, chan := 12,
      rxenabled := true, timer := some 1920 }

/-- C3: every invocation of the channel timeout handler below the 8-bit
counter wrap (`scanindex < 255`, which holds throughout every admitted
scan over a non-empty channel list, where `scanindex < numchan ≤ 15`)
disables the receiver first (`rxDisable` heads the trace) and increments
`scanindex` by exactly one; when the incremented index reaches `numchan`
it finalizes with status `SUCCESS` if descriptors were gathered and
`NO_BEACON` otherwise; when it does not, no outcome is produced, the radio
channel becomes `channels[scanindex]` with the page untouched, the
receiver is re-enabled and a one-shot timer for `scansymdur` (handled by
the same handler) is re-armed. -/
theorem scantimeout_step_spec (priv : PrivMac) (hb : priv.scanindex < 255) :
    (mac802154_scantimeout priv).1.scanindex = priv.scanindex + 1 ∧
    (mac802154_scantimeout priv).2.2.head? = some Event.rxDisable ∧
    (priv.scanindex + 1 = priv.currscan.numchan →
      ∃ c, (mac802154_scantimeout priv).2.1 = some c ∧
        c.status = (if 0 < priv.npandesc then ScanStatus.SUCCESS
                    else ScanStatus.NO_BEACON)) ∧
    (priv.scanindex + 1 ≠ priv.currscan.numchan →
      (mac802154_scantimeout priv).2.1 = none ∧
      (mac802154_scantimeout priv).1.chan
        = priv.currscan.channels (priv.scanindex + 1) ∧
      (mac802154_scantimeout priv).1.chpage = priv.chpage ∧
      (mac802154_scantimeout priv).1.rxenabled = true ∧
      (mac802154_scantimeout priv).1.timer = some priv.scansymdur) := by
  have hb2 : priv.scanindex + 1 < 256 := by omega
  by_cases h : priv.scanindex + 1 = priv.currscan.numchan
  · rw [scantimeout_final priv hb2 h]
    refine ⟨rfl, rfl, fun _ => ⟨_, rfl, by simp [doneConf]⟩, fun hne => absurd h hne⟩
  · rw [scantimeout_nonfinal priv hb2 h]
    exact ⟨rfl, rfl, fun heq => absurd heq h, fun _ => ⟨rfl, rfl, rfl, rfl, rfl⟩⟩

/-- Witness for C3: the final timeout of an admitted one-channel scan with
no descriptors gathered reports `NO_BEACON`. -/
theorem scantimeout_step_spec_attests :
    privEnd.scanindex < 255 ∧
    (mac802154_scantimeout privEnd).1.scanindex = privEnd.scanindex + 1 ∧
    (∃ c, (mac802154_scantimeout privEnd).2.1 = some c ∧
      c.status = (if 0 < privEnd.npandesc then ScanStatus.SUCCESS
                  else ScanStatus.NO_BEACON)) :=
  ⟨by decide,
   (scantimeout_step_spec privEnd (by decide)).1,
   (scantimeout_step_spec privEnd (by decide)).2.2.1 (by decide)⟩

/-- An admitted two-channel passive scan stopped after one channel:
`scanindex = 1`, channels `[11, 12]`. -/
def privPart : PrivMac :=
  { priv0 with
      curr_op := .OP_SCAN, opsem := true, currscan := reqPassive2,
      scanindex := 1, npandesc := 0, panid := IEEE802154_PANID_UNSPEC,
      panidbeforescan := 0x1234, scansymdur := 1920, chan := 11,
      rxenabled := true, timer := some 1920 }

/-- C4: every finalize call with `scanindex ≤ numchan` produces an outcome
whose unscanned-channel count is `numchan - scanindex` (zero when all
channels were scanned), whose unscanned list holds exactly
`channels[scanindex .. numchan)` (characterized pointwise with its length),
and which copies the `npandesc` gathered descriptors with their count and
the given status. -/
theorem scanfinish_outcome_spec (priv : PrivMac) (status : ScanStatus)
    (h : priv.scanindex ≤ priv.currscan.numchan) :
    (mac802154_scanfinish priv status).2.1.numdesc = priv.npandesc ∧
    (mac802154_scanfinish priv status).2.1.pandescs
      = priv.pandescs.take priv.npandesc ∧
    (mac802154_scanfinish priv status).2.1.status = status ∧
    (mac802154_scanfinish priv status).2.1.numunscanned
      = priv.currscan.numchan - priv.scanindex ∧
    (mac802154_scanfinish priv status).2.1.unscanned.length
      = priv.currscan.numchan - priv.scanindex ∧
    (∀ j, priv.scanindex ≤ j → j < priv.currscan.numchan →
      ((mac802154_scanfinish priv status).2.1.unscanned)[j - priv.scanindex]?
        = some (priv.currscan.channels j)) := by
  by_cases heq : priv.scanindex = priv.currscan.numchan
  · refine ⟨?_, ?_, ?_, ?_, ?_, ?_⟩
    · simp [mac802154_scanfinish, heq]
    · simp [mac802154_scanfinish, heq]
    · simp [mac802154_scanfinish, heq]
    · simp [mac802154_scanfinish, heq]
    · simp [mac802154_scanfinish, heq]
    · intro j hj1 hj2
      exact absurd hj2 (by omega)
  · refine ⟨?_, ?_, ?_, ?_, ?_, ?_⟩
    · simp [mac802154_scanfinish, heq]
    · simp [mac802154_scanfinish, heq]
    · simp [mac802154_scanfinish, heq]
    · simp [mac802154_scanfinish, heq]
    · simp [mac802154_scanfinish, heq]
    · intro j hj1 hj2
      have hlt : j - priv.scanindex < priv.currscan.numchan - priv.scanindex := by
        omega
      have hadd : priv.scanindex + (j - priv.scanindex) = j := by omega
      simp [mac802154_scanfinish, heq, List.getElem?_map, List.getElem?_range,
            hlt, hadd]

/-- Witness for C4: finalizing an interrupted two-channel scan after one
channel reports one unscanned channel, namely channel 12. -/
theorem scanfinish_outcome_spec_attests :
    (mac802154_scanfinish privPart ScanStatus.NO_BEACON).2.1.numunscanned
        = privPart.currscan.numchan - privPart.scanindex ∧
    ((mac802154_scanfinish privPart ScanStatus.NO_BEACON).2.1.unscanned)[1 - privPart.scanindex]?
        = some (privPart.currscan.channels 1) :=
  ⟨((scanfinish_outcome_spec privPart ScanStatus.NO_BEACON) (by decide)).2.2.2.1,
   ((scanfinish_outcome_spec privPart ScanStatus.NO_BEACON) (by decide)).2.2.2.2.2
     1 (by decide) (by decide)⟩

/-! Lemmas about whole scan runs. -/

/-- One-step unfolding of `runScanSteps` on an empty schedule. -/
theorem runScanSteps_nil (priv : PrivMac) :
    runScanSteps [] priv = (priv, []) := rfl

/-- One-step unfolding of `runScanSteps` on a schedule step. -/
theorem runScanSteps_cons (ds : List PanDesc) (rest : List (List PanDesc))
    (priv : PrivMac) :
    runScanSteps (ds :: rest) priv =
      ((runScanSteps rest (mac802154_scantimeout (appendRun ds priv)).1).1,
       (mac802154_scantimeout (appendRun ds priv)).2.2 ++
         (runScanSteps rest (mac802154_scantimeout (appendRun ds priv)).1).2) :=
  rfl

/-- Runs compose over schedule concatenation. -/
theorem runScanSteps_append (s1 s2 : List (List PanDesc)) :
    ∀ priv : PrivMac,
      runScanSteps (s1 ++ s2) priv =
        ((runScanSteps s2 (runScanSteps s1 priv).1).1,
         (runScanSteps s1 priv).2 ++
           (runScanSteps s2 (runScanSteps s1 priv).1).2) := by
  induction s1 with
  | nil =>
    intro priv
    simp [runScanSteps_nil]
  | cons ds rest ih =>
    intro priv
    rw [List.cons_append, runScanSteps_cons, runScanSteps_cons,
        ih ((mac802154_scantimeout (appendRun ds priv)).1)]
    simp [List.append_assoc]

/-- A descriptor arrival only touches the descriptor buffer and its count. -/
theorem appendDesc_spec (d : PanDesc) (p : PrivMac) :
    ∃ pd nd, appendDesc d p = { p with pandescs := pd, npandesc := nd } := by
  unfold appendDesc
  by_cases h : p.curr_op = MacOp.OP_SCAN
  · exact ⟨p.pandescs ++ [d], p.npandesc + 1, by simp [h]⟩
  · exact ⟨p.pandescs, p.npandesc, by simp [h]⟩

/-- Any burst of descriptor arrivals only touches the descriptor buffer and
its count. -/
theorem appendRun_spec (ds : List PanDesc) (p : PrivMac) :
    ∃ pd nd, appendRun ds p = { p with pandescs := pd, npandesc := nd } := by
  induction ds generalizing p with
  | nil => exact ⟨p.pandescs, p.npandesc, rfl⟩
  | cons d ds ih =>
    obtain ⟨pd1, nd1, h1⟩ := appendDesc_spec d p
    obtain ⟨pd2, nd2, h2⟩ := ih { p with pandescs := pd1, npandesc := nd1 }
    refine ⟨pd2, nd2, ?_⟩
    show appendRun ds (appendDesc d p) = _
    rw [h1, h2]

/-- A run whose schedule length exactly covers the remaining channels ends
with the scan finalized: PAN id restored from `panidbeforescan`, index at
`numchan`, timer disarmed, operation reset and `opsem` released; its trace
writes the PAN id exactly once (the restore), delivers exactly one
notification, saves no PAN id, and only ever arms timers for `scansymdur`. -/
theorem runScan_complete (sched : List (List PanDesc)) :
    ∀ priv : PrivMac, 1 ≤ sched.length →
      priv.currscan.numchan = priv.scanindex + sched.length →
      priv.scanindex + sched.length < 256 →
      (runScanSteps sched priv).1.panid = priv.panidbeforescan ∧
      (runScanSteps sched priv).1.scanindex = priv.currscan.numchan ∧
      (runScanSteps sched priv).1.timer = none ∧
      (runScanSteps sched priv).1.curr_op = MacOp.OP_NONE ∧
      (runScanSteps sched priv).1.opsem = false ∧
      (runScanSteps sched priv).2.filter isSetPanId
        = [Event.setPanId priv.panidbeforescan] ∧
      (runScanSteps sched priv).2.countP isNotify = 1 ∧
      (runScanSteps sched priv).2.countP isSavePanId = 0 ∧
      (∀ d, Event.timerStart d ∈ (runScanSteps sched priv).2 →
        d = priv.scansymdur) := by
  induction sched with
  | nil =>
    intro priv hlen _ _
    exact absurd hlen (by simp)
  | cons ds rest ih =>
    intro priv _ hnum hnw
    obtain ⟨pd, nd, hA⟩ := appendRun_spec ds priv
    have hb2 : ({ priv with pandescs := pd, npandesc := nd } : PrivMac).scanindex + 1
        < 256 := by
      simp only [List.length_cons] at hnw
      simp
      omega
    rcases rest with _ | ⟨ds2, rest2⟩
    · have hfin : ({ priv with pandescs := pd, npandesc := nd } : PrivMac).scanindex + 1
          = ({ priv with pandescs := pd, npandesc := nd } : PrivMac).currscan.numchan := by
        simp only [List.length_cons, List.length_nil] at hnum
        simpa using hnum.symm
      rw [runScanSteps_cons, hA, scantimeout_final _ hb2 hfin]
      simp only [runScanSteps_nil, List.append_nil]
      refine ⟨by trivial, ?_, by trivial, by trivial, by trivial,
              by simp [isSetPanId], by simp [isNotify],
              by simp [isSavePanId], ?_⟩
      · simp only [List.length_cons, List.length_nil] at hnum
        simpa using hnum.symm
      · intro d hd
        simp [isNotify] at hd
    · have hne : ({ priv with pandescs := pd, npandesc := nd } : PrivMac).scanindex + 1
          ≠ ({ priv with pandescs := pd, npandesc := nd } : PrivMac).currscan.numchan := by
        simp only [List.length_cons] at hnum
        simp
        omega
      rw [runScanSteps_cons, hA, scantimeout_nonfinal _ hb2 hne]
      have hrec := ih
        ({ priv with
            pandescs := pd
            npandesc := nd
            scanindex := priv.scanindex + 1
            chan := priv.currscan.channels (priv.scanindex + 1)
            rxenabled := true
            timer := some priv.scansymdur } : PrivMac)
        (Nat.le_add_left 1 rest2.length)
        (by simp only [List.length_cons] at hnum ⊢; omega)
        (by simp only [List.length_cons] at hnw ⊢; omega)
      obtain ⟨hp1, hp2, hp3, hp4, hp5, hp6, hp7, hp8, hp9⟩ := hrec
      refine ⟨by simpa using hp1, by simpa using hp2, hp3, hp4, hp5, ?_, ?_, ?_, ?_⟩
      · rw [List.filter_append]
        simpa [isSetPanId] using hp6
      · rw [List.countP_append]
        simpa [isNotify, List.countP_cons] using hp7
      · rw [List.countP_append]
        simpa [isSavePanId, List.countP_cons] using hp8
      · intro d hd
        rw [List.mem_append] at hd
        rcases hd with hd | hd
        · simpa using hd
        · simpa using hp9 d hd

/-- As long as the schedule does not outrun the channel list, every timeout
advances `scanindex` by exactly one. -/
theorem runScan_prefix_index (sched : List (List PanDesc)) :
    ∀ priv : PrivMac,
      priv.currscan.numchan < 256 →
      priv.scanindex + sched.length ≤ priv.currscan.numchan →
      (runScanSteps sched priv).1.scanindex = priv.scanindex + sched.length := by
  induction sched with
  | nil =>
    intro priv _ _
    simp [runScanSteps_nil]
  | cons ds rest ih =>
    intro priv hnc hle
    obtain ⟨pd, nd, hA⟩ := appendRun_spec ds priv
    simp only [List.length_cons] at hle
    have hb2 : ({ priv with pandescs := pd, npandesc := nd } : PrivMac).scanindex + 1
        < 256 := by
      simp
      omega
    by_cases hfin : priv.scanindex + 1 = priv.currscan.numchan
    · have hrest : rest = [] := by
        cases rest with
        | nil => rfl
        | cons x xs =>
          exfalso
          simp only [List.length_cons] at hle
          omega
      subst hrest
      have hfin2 : ({ priv with pandescs := pd, npandesc := nd } : PrivMac).scanindex + 1
          = ({ priv with pandescs := pd, npandesc := nd } : PrivMac).currscan.numchan := by
        simpa using hfin
      rw [runScanSteps_cons, hA, scantimeout_final _ hb2 hfin2]
      simp [runScanSteps_nil]
    · have hne : ({ priv with pandescs := pd, npandesc := nd } : PrivMac).scanindex + 1
          ≠ ({ priv with pandescs := pd, npandesc := nd } : PrivMac).currscan.numchan := by
        simpa using hfin
      rw [runScanSteps_cons, hA, scantimeout_nonfinal _ hb2 hne]
      have hrec := ih
        ({ priv with
            pandescs := pd
            npandesc := nd
            scanindex := priv.scanindex + 1
            chan := priv.currscan.channels (priv.scanindex + 1)
            rxenabled := true
            timer := some priv.scansymdur } : PrivMac)
        (by simpa using hnc)
        (by simp; omega)
      rw [hrec]
      simp
      omega

/-- With an empty channel list and fewer timeouts than the 8-bit wrap
point, every timeout takes the non-final branch: the operation and its
semaphore stay held, `scanindex` keeps growing, the timer is re-armed each
time, and the trace never delivers a notification nor releases the
operation semaphore. At the 256th timeout `scanindex` wraps to 0 and the
scan finalizes instead (`scantimeout_wrap_final`). -/
theorem runScan_numchan_zero (sched : List (List PanDesc)) :
    ∀ priv : PrivMac, priv.currscan.numchan = 0 →
      priv.scanindex + sched.length ≤ 255 →
      (runScanSteps sched priv).1.curr_op = priv.curr_op ∧
      (runScanSteps sched priv).1.opsem = priv.opsem ∧
      (runScanSteps sched priv).1.currscan.numchan = 0 ∧
      (runScanSteps sched priv).1.scanindex = priv.scanindex + sched.length ∧
      ((runScanSteps sched priv).1.timer
        = if sched.length = 0 then priv.timer else some priv.scansymdur) ∧
      (runScanSteps sched priv).1.scansymdur = priv.scansymdur ∧
      (runScanSteps sched priv).2.countP isNotify = 0 ∧
      (runScanSteps sched priv).2.countP isGiveOpSem = 0 := by
  induction sched with
  | nil =>
    intro priv hz _
    simp [runScanSteps_nil, hz]
  | cons ds rest ih =>
    intro priv hz hnw
    obtain ⟨pd, nd, hA⟩ := appendRun_spec ds priv
    simp only [List.length_cons] at hnw
    have hb2 : ({ priv with pandescs := pd, npandesc := nd } : PrivMac).scanindex + 1
        < 256 := by
      simp
      omega
    have hne : ({ priv with pandescs := pd, npandesc := nd } : PrivMac).scanindex + 1
        ≠ ({ priv with pandescs := pd, npandesc := nd } : PrivMac).currscan.numchan := by
      simp [hz]
    rw [runScanSteps_cons, hA, scantimeout_nonfinal _ hb2 hne]
    have hrec := ih
      ({ priv with
          pandescs := pd
          npandesc := nd
          scanindex := priv.scanindex + 1
          chan := priv.currscan.channels (priv.scanindex + 1)
          rxenabled := true
          timer := some priv.scansymdur } : PrivMac)
      (by simpa using hz)
      (by simp; omega)
    obtain ⟨hp1, hp2, hp3, hp4, hp5, hp6, hp7, hp8⟩ := hrec
    refine ⟨by simpa using hp1, by simpa using hp2, hp3,
            by simp only [List.length_cons]; rw [hp4]; simp; omega, ?_, ?_, ?_, ?_⟩
    · rw [hp5]
      rcases rest with _ | ⟨r, rs⟩ <;> simp
    · simpa using hp6
    · rw [List.countP_append]
      simpa [isNotify, List.countP_cons] using hp7
    · rw [List.countP_append]
      simpa [isGiveOpSem, List.countP_cons] using hp8

/-- Every timer armed during a run uses the admitted `scansymdur`, which no
step ever changes. -/
theorem runScan_timer_durations (sched : List (List PanDesc)) :
    ∀ priv : PrivMac,
      (runScanSteps sched priv).1.scansymdur = priv.scansymdur ∧
      (∀ d, Event.timerStart d ∈ (runScanSteps sched priv).2 →
        d = priv.scansymdur) := by
  induction sched with
  | nil =>
    intro priv
    simp [runScanSteps_nil]
  | cons ds rest ih =>
    intro priv
    obtain ⟨pd, nd, hA⟩ := appendRun_spec ds priv
    by_cases hfin : (priv.scanindex + 1) % 256 = priv.currscan.numchan
    · have hfin2 : (({ priv with pandescs := pd, npandesc := nd } : PrivMac).scanindex + 1)
          % 256
          = ({ priv with pandescs := pd, npandesc := nd } : PrivMac).currscan.numchan := by
        simpa using hfin
      rw [runScanSteps_cons, hA, scantimeout_final_mod _ hfin2]
      have hrec := ih
        ({ priv with
            pandescs := pd
            npandesc := nd
            rxenabled := false
            timer := none
            scanindex := (priv.scanindex + 1) % 256
            curr_op := MacOp.OP_NONE
            opsem := false
            exclsem := false
            panid := priv.panidbeforescan } : PrivMac)
      refine ⟨by simpa using hrec.1, ?_⟩
      intro d hd
      rw [List.mem_append] at hd
      rcases hd with hd | hd
      · simp at hd
      · simpa using hrec.2 d hd
    · have hne : (({ priv with pandescs := pd, npandesc := nd } : PrivMac).scanindex + 1)
          % 256
          ≠ ({ priv with pandescs := pd, npandesc := nd } : PrivMac).currscan.numchan := by
        simpa using hfin
      rw [runScanSteps_cons, hA, scantimeout_nonfinal_mod _ hne]
      have hrec := ih
        ({ priv with
            pandescs := pd
            npandesc := nd
            scanindex := (priv.scanindex + 1) % 256
            chan := priv.currscan.channels ((priv.scanindex + 1) % 256)
            rxenabled := true
            timer := some priv.scansymdur } : PrivMac)
      refine ⟨by simpa using hrec.1, ?_⟩
      intro d hd
      rw [List.mem_append] at hd
      rcases hd with hd | hd
      · simpa using hd
      · simpa using hrec.2 d hd

/-- C5: for every admitted passive scan run to completion (any descriptor
arrival schedule covering the channels), the PAN id is saved exactly once
at scan start (`savePanId` appears once in the admission trace and never
afterwards) and restored exactly once at finalize (the run trace writes the
PAN id exactly once, with the saved value), so the PAN id after finalize
equals the PAN id observed immediately before admission. -/
theorem scan_panid_restored (priv : PrivMac) (req : ScanReq)
    (sched : List (List PanDesc))
    (h1 : req.duration ≤ 15) (h2 : req.numchan ≤ 15)
    (h3 : req.type = ScanType.PASSIVE) (h4 : 1 ≤ req.numchan)
    (h5 : sched.length = req.numchan) :
    (mac802154_req_scan priv req true true).1.panidbeforescan = priv.panid ∧
    (mac802154_req_scan priv req true true).2.1.countP isSavePanId = 1 ∧
    (runScanSteps sched (mac802154_req_scan priv req true true).1).2.countP
      isSavePanId = 0 ∧
    (runScanSteps sched (mac802154_req_scan priv req true true).1).2.filter
      isSetPanId = [Event.setPanId priv.panid] ∧
    (runScanSteps sched (mac802154_req_scan priv req true true).1).1.panid
      = priv.panid := by
  have hs : (mac802154_req_scan priv req true true).1.currscan.numchan
      = (mac802154_req_scan priv req true true).1.scanindex + sched.length := by
    rw [req_scan_passive_eq priv req h1 h2 h3]
    simpa using h5.symm
  have hlen : 1 ≤ sched.length := by omega
  have hnw : (mac802154_req_scan priv req true true).1.scanindex + sched.length
      < 256 := by
    rw [req_scan_passive_eq priv req h1 h2 h3]
    simp
    omega
  have hrun := runScan_complete sched ((mac802154_req_scan priv req true true).1)
    hlen hs hnw
  refine ⟨?_, ?_, hrun.2.2.2.2.2.2.2.1, ?_, ?_⟩
  · rw [req_scan_passive_eq priv req h1 h2 h3]
  · rw [req_scan_passive_eq priv req h1 h2 h3]
    simp [isSavePanId, List.countP_cons]
  · rw [hrun.2.2.2.2.2.1, req_scan_passive_eq priv req h1 h2 h3]
  · rw [hrun.1, req_scan_passive_eq priv req h1 h2 h3]

/-- Witness for C5: Scenario A, two channels, no beacons. -/
theorem scan_panid_restored_attests :
    (runScanSteps [[], []]
        (mac802154_req_scan priv0 reqPassive2 true true).1).1.panid
      = priv0.panid :=
  (scan_panid_restored priv0 reqPassive2 [[], []] (by decide) (by decide)
    (by decide) (by decide) (by decide)).2.2.2.2

/-- C6 counterexample: a passive request with `numchan = 0` is admitted
(`OK`), yet the very first channel timeout already drives `scanindex` to 1,
strictly above `numchan = 0`, refuting the claim that `scanindex` never
exceeds `numchan` for every scan. -/
theorem scanindex_exceeds_cex :
    (mac802154_req_scan priv0 reqPassive0 true true).2.2 = RetCode.OK ∧
    (mac802154_req_scan priv0 reqPassive0 true true).1.currscan.numchan = 0 ∧
    (runScanSteps [[]]
        (mac802154_req_scan priv0 reqPassive0 true true).1).1.scanindex = 1 := by
  decide

/-- C6 amended: for every admitted passive scan over at least one channel,
`scanindex` starts at 0 at admission, advances by exactly one per channel
timeout (after the first `j ≤ numchan` timeouts it equals `j`), and the
scan delivers exactly `numchan` timeouts — after the last one the timer is
disarmed — so `scanindex` never exceeds `numchan` over the life of the
scan. The bound fails for the admitted `numchan = 0` scan. -/
theorem scanindex_lifecycle (priv : PrivMac) (req : ScanReq)
    (sched : List (List PanDesc))
    (h1 : req.duration ≤ 15) (h2 : req.numchan ≤ 15)
    (h3 : req.type = ScanType.PASSIVE) (h4 : 1 ≤ req.numchan)
    (h5 : sched.length = req.numchan) :
    (mac802154_req_scan priv req true true).1.scanindex = 0 ∧
    (∀ j, j ≤ req.numchan →
      (runScanSteps (sched.take j)
          (mac802154_req_scan priv req true true).1).1.scanindex = j) ∧
    (runScanSteps sched (mac802154_req_scan priv req true true).1).1.timer
      = none := by
  refine ⟨?_, ?_, ?_⟩
  · rw [req_scan_passive_eq priv req h1 h2 h3]
  · intro j hj
    have hnc : (mac802154_req_scan priv req true true).1.currscan.numchan
        < 256 := by
      rw [req_scan_passive_eq priv req h1 h2 h3]
      simp
      omega
    have hle : (mac802154_req_scan priv req true true).1.scanindex
          + (sched.take j).length
        ≤ (mac802154_req_scan priv req true true).1.currscan.numchan := by
      rw [req_scan_passive_eq priv req h1 h2 h3]
      simp [List.length_take]
      omega
    rw [runScan_prefix_index (sched.take j) _ hnc hle,
        req_scan_passive_eq priv req h1 h2 h3]
    simp [List.length_take]
    omega
  · exact (runScan_complete sched _ (by omega)
      (by rw [req_scan_passive_eq priv req h1 h2 h3]; simpa using h5.symm)
      (by rw [req_scan_passive_eq priv req h1 h2 h3]; simp; omega)).2.2.1

/-- Witness for the amended C6: Scenario A with two channels. -/
theorem scanindex_lifecycle_attests :
    (runScanSteps ([[], []].take 1)
        (mac802154_req_scan priv0 reqPassive2 true true).1).1.scanindex = 1 ∧
    (runScanSteps [[], []]
        (mac802154_req_scan priv0 reqPassive2 true true).1).1.timer = none :=
  ⟨(scanindex_lifecycle priv0 reqPassive2 [[], []] (by decide) (by decide)
      (by decide) (by decide) (by decide)).2.1 1 (by decide),
   (scanindex_lifecycle priv0 reqPassive2 [[], []] (by decide) (by decide)
      (by decide) (by decide) (by decide)).2.2⟩

/-- C7: every admitted passive scan computes
`scansymdur = aBaseSuperframeDuration * (2 ^ duration + 1)` once at
admission (the shift `1 << duration` of the source equals `2 ^ duration`),
arms the first timer with it, and every timer armed later in the run — one
per remaining channel — carries that same unchanged value. -/
theorem scan_window_duration_spec (priv : PrivMac) (req : ScanReq)
    (sched : List (List PanDesc))
    (h1 : req.duration ≤ 15) (h2 : req.numchan ≤ 15)
    (h3 : req.type = ScanType.PASSIVE) :
    (mac802154_req_scan priv req true true).1.scansymdur
      = aBaseSuperframeDuration * (2 ^ req.duration + 1) ∧
    (mac802154_req_scan priv req true true).1.timer
      = some (aBaseSuperframeDuration * (2 ^ req.duration + 1)) ∧
    (∀ d, Event.timerStart d ∈ (mac802154_req_scan priv req true true).2.1 →
      d = aBaseSuperframeDuration * (2 ^ req.duration + 1)) ∧
    (∀ d, Event.timerStart d ∈
        (runScanSteps sched (mac802154_req_scan priv req true true).1).2 →
      d = aBaseSuperframeDuration * (2 ^ req.duration + 1)) := by
  have hsh : (1 <<< req.duration) = 2 ^ req.duration := by
    simp [Nat.shiftLeft_eq]
  refine ⟨?_, ?_, ?_, ?_⟩
  · rw [req_scan_passive_eq priv req h1 h2 h3]
    simp [hsh]
  · rw [req_scan_passive_eq priv req h1 h2 h3]
    simp [hsh]
  · intro d hd
    rw [req_scan_passive_eq priv req h1 h2 h3] at hd
    simp at hd
    simpa [hsh] using hd
  · intro d hd
    have hdur := (runScan_timer_durations sched
      ((mac802154_req_scan priv req true true).1)).2 d hd
    rw [req_scan_passive_eq priv req h1 h2 h3] at hdur
    simpa [hsh] using hdur

/-- Witness for C7 at Scenario B (one channel, duration 0):
`scansymdur = 960 * 2`. -/
theorem scan_window_duration_spec_attests :
    (mac802154_req_scan priv0 reqPassive1 true true).1.scansymdur
      = aBaseSuperframeDuration * (2 ^ reqPassive1.duration + 1) :=
  (scan_window_duration_spec priv0 reqPassive1 [[]] (by decide) (by decide)
    (by decide)).1

/-- C8: the finalize trace is, in order: take `exclsem`, allocate the
notification, set `curr_op = OP_NONE`, release `opsem`, assemble the
outcome, restore the PAN id, release `exclsem`, deliver the notification —
so resetting the operation and releasing `opsem` (positions 2 and 3) come
before the outcome assembly (position 4) and the PAN id restore
(position 5), and the single `notify` is last, after both; moreover a full
admitted scan run delivers exactly one notification. -/
theorem scanfinish_release_order_single_notify :
    (∀ (priv : PrivMac) (st : ScanStatus),
      (mac802154_scanfinish priv st).2.2 =
        [Event.takeExclSem false, Event.notifAlloc,
         Event.setCurrOp MacOp.OP_NONE, Event.giveOpSem,
         Event.assembleOutcome (mac802154_scanfinish priv st).2.1,
         Event.setPanId priv.panidbeforescan, Event.giveExclSem,
         Event.notify (mac802154_scanfinish priv st).2.1]) ∧
    (∀ (priv : PrivMac) (req : ScanReq) (sched : List (List PanDesc)),
      req.duration ≤ 15 → req.numchan ≤ 15 → req.type = ScanType.PASSIVE →
      1 ≤ req.numchan → sched.length = req.numchan →
      (runScanSteps sched
          (mac802154_req_scan priv req true true).1).2.countP isNotify = 1) := by
  constructor
  · intro priv st
    rfl
  · intro priv req sched h1 h2 h3 h4 h5
    exact (runScan_complete sched _ (by omega)
      (by rw [req_scan_passive_eq priv req h1 h2 h3]; simpa using h5.symm)
      (by rw [req_scan_passive_eq priv req h1 h2 h3];
          simp; omega)).2.2.2.2.2.2.1

/-- Witness for C8: the one-channel run delivers exactly one
notification. -/
theorem scanfinish_release_order_single_notify_attests :
    (runScanSteps [[]]
        (mac802154_req_scan priv0 reqPassive1 true true).1).2.countP
      isNotify = 1 :=
  scanfinish_release_order_single_notify.2 priv0 reqPassive1 [[]]
    (by decide) (by decide) (by decide) (by decide) (by decide)

/-- C10 counterexample: for the admitted empty-channel-list scan, after
256 channel timeouts the 8-bit `scanindex` has wrapped 255 to 0, the
equality test against `numchan = 0` has fired, and finalize HAS run:
exactly one notification was delivered, `opsem` was released and `curr_op`
reset to `OP_NONE` — refuting the claim that no outcome is ever delivered
and the operation lock never released. -/
theorem scan_empty_never_finishes_cex :
    (mac802154_req_scan priv0 reqPassive0 true true).2.2 = RetCode.OK ∧
    (runScanSteps (List.replicate 256 [])
        (mac802154_req_scan priv0 reqPassive0 true true).1).2.countP
      isNotify = 1 ∧
    (runScanSteps (List.replicate 256 [])
        (mac802154_req_scan priv0 reqPassive0 true true).1).1.opsem = false ∧
    (runScanSteps (List.replicate 256 [])
        (mac802154_req_scan priv0 reqPassive0 true true).1).1.curr_op
      = MacOp.OP_NONE := by
  set_option maxRecDepth 8192 in decide

/-- C10 amended: a passive request with `numchan = 0` passes validation
and is admitted (`OK`); for the first 255 channel timeouts the equality
test against `numchan = 0` keeps failing — `curr_op` stays `OP_SCAN`,
`opsem` is never released (no `giveOpSem` event), the timer is re-armed
every time and no notification is delivered, while the channel
configuration reads past the 15-entry channel array — but `scanindex` is a
`uint8_t`: the 256th timeout wraps it to 0, the equality test then holds,
and the scan finalizes after all, delivering exactly one outcome and
releasing the operation semaphore. -/
theorem scan_empty_wrap_lifecycle (priv : PrivMac) (req : ScanReq)
    (h1 : req.duration ≤ 15) (h2 : req.type = ScanType.PASSIVE)
    (h3 : req.numchan = 0) :
    (mac802154_req_scan priv req true true).2.2 = RetCode.OK ∧
    (∀ sched : List (List PanDesc), sched.length ≤ 255 →
      (runScanSteps sched (mac802154_req_scan priv req true true).1).1.curr_op
        = MacOp.OP_SCAN ∧
      (runScanSteps sched (mac802154_req_scan priv req true true).1).1.opsem
        = true ∧
      (runScanSteps sched (mac802154_req_scan priv req true true).1).1.scanindex
        = sched.length ∧
      (runScanSteps sched (mac802154_req_scan priv req true true).1).1.timer
        = some (aBaseSuperframeDuration * (2 ^ req.duration + 1)) ∧
      (runScanSteps sched (mac802154_req_scan priv req true true).1).2.countP
        isNotify = 0 ∧
      (runScanSteps sched (mac802154_req_scan priv req true true).1).2.countP
        isGiveOpSem = 0) ∧
    (∀ sched : List (List PanDesc), sched.length = 256 →
      (runScanSteps sched (mac802154_req_scan priv req true true).1).1.curr_op
        = MacOp.OP_NONE ∧
      (runScanSteps sched (mac802154_req_scan priv req true true).1).1.opsem
        = false ∧
      (runScanSteps sched (mac802154_req_scan priv req true true).1).1.timer
        = none ∧
      (runScanSteps sched (mac802154_req_scan priv req true true).1).2.countP
        isNotify = 1) := by
  have h2n : req.numchan ≤ 15 := by omega
  have hz : (mac802154_req_scan priv req true true).1.currscan.numchan = 0 := by
    rw [req_scan_passive_eq priv req h1 h2n h2]
    simpa using h3
  refine ⟨?_, ?_, ?_⟩
  · rw [req_scan_passive_eq priv req h1 h2n h2]
  · intro sched hb
    have hrec := runScan_numchan_zero sched
      ((mac802154_req_scan priv req true true).1) hz
      (by rw [req_scan_passive_eq priv req h1 h2n h2]; simp; omega)
    obtain ⟨hp1, hp2, hp3, hp4, hp5, hp6, hp7, hp8⟩ := hrec
    refine ⟨?_, ?_, ?_, ?_, hp7, hp8⟩
    · rw [hp1, req_scan_passive_eq priv req h1 h2n h2]
    · rw [hp2, req_scan_passive_eq priv req h1 h2n h2]
    · rw [hp4, req_scan_passive_eq priv req h1 h2n h2]
      simp
    · rw [hp5]
      rcases sched with _ | ⟨s, ss⟩
      · rw [req_scan_passive_eq priv req h1 h2n h2]
        simp [Nat.shiftLeft_eq]
      · rw [req_scan_passive_eq priv req h1 h2n h2]
        simp [Nat.shiftLeft_eq]
  · intro sched hlen
    have htk : (sched.take 255).length = 255 := by
      rw [List.length_take, hlen]
      omega
    have hfront := runScan_numchan_zero (sched.take 255)
      ((mac802154_req_scan priv req true true).1) hz
      (by rw [htk, req_scan_passive_eq priv req h1 h2n h2])
    obtain ⟨hf1, hf2, hf3, hf4, hf5, hf6, hf7, hf8⟩ := hfront
    obtain ⟨ds, hds⟩ : ∃ a, sched.drop 255 = [a] :=
      List.length_eq_one.mp (by rw [List.length_drop, hlen])
    have hsplit := runScanSteps_append (sched.take 255) (sched.drop 255)
      ((mac802154_req_scan priv req true true).1)
    rw [List.take_append_drop] at hsplit
    have hidx : (runScanSteps (sched.take 255)
        ((mac802154_req_scan priv req true true).1)).1.scanindex = 255 := by
      rw [hf4, htk, req_scan_passive_eq priv req h1 h2n h2]
    obtain ⟨pd, nd, hA⟩ := appendRun_spec ds
      ((runScanSteps (sched.take 255)
        ((mac802154_req_scan priv req true true).1)).1)
    have hb0 : ({ (runScanSteps (sched.take 255)
          ((mac802154_req_scan priv req true true).1)).1 with
        pandescs := pd, npandesc := nd } : PrivMac).scanindex = 255 := by
      simpa using hidx
    have hz0 : ({ (runScanSteps (sched.take 255)
          ((mac802154_req_scan priv req true true).1)).1 with
        pandescs := pd, npandesc := nd } : PrivMac).currscan.numchan = 0 := by
      simpa using hf3
    rw [hsplit, hds, runScanSteps_cons, hA, scantimeout_wrap_final _ hb0 hz0]
    refine ⟨?_, ?_, ?_, ?_⟩
    · simp [runScanSteps_nil]
    · simp [runScanSteps_nil]
    · simp [runScanSteps_nil]
    · rw [List.countP_append]
      simp [runScanSteps_nil, isNotify, List.countP_cons, hf7]

/-- Witness for the amended C10: the empty-channel-list scan is still
running after two timeouts, and has finalized with one notification after
256 timeouts. -/
theorem scan_empty_wrap_lifecycle_attests :
    ((runScanSteps [[], []]
        (mac802154_req_scan priv0 reqPassive0 true true).1).1.curr_op
      = MacOp.OP_SCAN) ∧
    ((runScanSteps (List.replicate 256 [])
        (mac802154_req_scan priv0 reqPassive0 true true).1).1.opsem
      = false) :=
  ⟨((scan_empty_wrap_lifecycle priv0 reqPassive0 (by decide) (by decide)
      (by decide)).2.1 [[], []] (by decide)).1,
   ((scan_empty_wrap_lifecycle priv0 reqPassive0 (by decide) (by decide)
      (by decide)).2.2 (List.replicate 256 []) (by rw [List.length_replicate])).2.1⟩

end Mac802154Scan
